import Mathlib

/-!
# Global SfM command line driver (`src/software/globalSfM/main_GlobalSfM.cpp`)

A shallow embedding of `main`: the function is a straight-line sequence of
validation checks followed by calls into external collaborators (the option
parser of `third_party/cmdLine`, the `stlplus` file-system helpers, the
`GlobalReconstructionEngine` and its `reconstructorHelper`).  None of these
collaborators is part of the translated file, so each of them is an oracle
of the environment `Env`; `main` itself is translated statement by statement
and returns its exit code together with the ordered trace of every
observable action (stream output and collaborator calls, with the values
that were passed and returned).

The `openMVG::Timer` of line 102 only feeds the elapsed time printed at
line 116 and is not represented.

Assumptions of the model, all about code outside the translated file:
* `cmd.process` either throws a `std::string` or returns after storing the
  parsed values through the references registered with `make_option`;
* every collaborator call returns (no exception, no abort);
* the program was started with a program name, so `argc = 1 + #arguments`.
-/

namespace GlobalSfM

/-! ## Constants of headers that the translated file includes -/

/-- Modelled from the spec: the `cstdlib` macro `EXIT_SUCCESS`; the spec's
CLI surface says "exit code 0 on success". -/
def EXIT_SUCCESS : Int := 0

/-- Modelled from the spec: the `cstdlib` macro `EXIT_FAILURE`; the spec's
CLI surface says "non-zero on any validation or pipeline failure". -/
def EXIT_FAILURE : Int := 1

/-- Modelled from the spec: enumerator of `ERotationAveragingMethod`, declared
in `SfMGlobalEngine.hpp`; the integer coding 1 = L1 is the one the usage text
of `main` (line 62) documents. -/
def ROTATION_AVERAGING_L1 : Int := 1

/-- Modelled from the spec: enumerator of `ERotationAveragingMethod`, declared
in `SfMGlobalEngine.hpp`; the integer coding 2 = L2 is the one the usage text
of `main` (line 62) documents. -/
def ROTATION_AVERAGING_L2 : Int := 2

/-- Modelled from the spec: enumerator of `ETranslationAveragingMethod`,
declared in `SfMGlobalEngine.hpp`; the integer coding 1 = L1 is the one the
usage text of `main` (line 63) documents. -/
def TRANSLATION_AVERAGING_L1 : Int := 1

/-- Modelled from the spec: enumerator of `ETranslationAveragingMethod`,
declared in `SfMGlobalEngine.hpp`; the integer coding 2 = L2 is the one the
usage text of `main` (line 63) documents. -/
def TRANSLATION_AVERAGING_L2 : Int := 2

/-- The enum type `ERotationAveragingMethod`; the functional cast
`ERotationAveragingMethod(i)` of line 107 is the constructor. -/
structure ERotationAveragingMethod where
  val : Int
  deriving DecidableEq, Repr

/-- The enum type `ETranslationAveragingMethod`; the functional cast
`ETranslationAveragingMethod(i)` of line 108 is the constructor. -/
structure ETranslationAveragingMethod where
  val : Int
  deriving DecidableEq, Repr

/-! ## Local variables of `main` and the option registrations -/

/-- The eight local variables bound to command line options (lines 35-42). -/
structure Vars where
  sSfM_Data_Filename : String
  sMatchesDir : String
  sOutDir : String
  bColoredPointCloud : Bool
  iRotationAveragingMethod : Int
  iTranslationAveragingMethod : Int
  bRefineFocalAndPP : Bool
  bRefineDisto : Bool
  deriving DecidableEq, Repr

/-- Initial values of the local variables (lines 35-42); a default
constructed `std::string` is empty. -/
def defaults : Vars where
  sSfM_Data_Filename := ""
  sMatchesDir := ""
  sOutDir := ""
  bColoredPointCloud := false
  iRotationAveragingMethod := 2
  iTranslationAveragingMethod := 1
  bRefineFocalAndPP := true
  bRefineDisto := true

/-- One option occurrence recognised by `cmd.process`, named after the
short switch of its `make_option` registration (lines 44-51), with the value
that was read for it. -/
inductive OptArg where
  | i (value : String)
  | m (value : String)
  | o (value : String)
  | c (value : Bool)
  | r (value : Int)
  | t (value : Int)
  | f (value : Bool)
  | d (value : Bool)
  deriving DecidableEq, Repr

/-- The store performed for one recognised option: every `make_option`
of lines 44-51 binds a switch to a local variable by reference. -/
def applyOpt (v : Vars) : OptArg → Vars
  | .i s => { v with sSfM_Data_Filename := s }
  | .m s => { v with sMatchesDir := s }
  | .o s => { v with sOutDir := s }
  | .c b => { v with bColoredPointCloud := b }
  | .r n => { v with iRotationAveragingMethod := n }
  | .t n => { v with iTranslationAveragingMethod := n }
  | .f b => { v with bRefineFocalAndPP := b }
  | .d b => { v with bRefineDisto := b }

/-- The stores of a whole successful `cmd.process` run, in command line
order (a repeated switch overwrites the earlier value). -/
def applyOpts (v : Vars) (opts : List OptArg) : Vars :=
  opts.foldl applyOpt v

/-! ## Observable actions -/

/-- The last-but-two argument of the exporters: `&vec_tracksColor` or `NULL`
(lines 130 and 145). -/
inductive ColorPtr where
  | NULL
  | vec_tracksColor
  deriving DecidableEq, Repr

/-- The configuration the engine object holds when `Process()` is called:
the six constructor arguments (lines 103-109) and the two setters
(lines 111-112). -/
structure EngineConfig where
  sSfM_Data_Filename : String
  sMatchesDir : String
  sOutDir : String
  eRotationAveragingMethod : ERotationAveragingMethod
  eTranslationAveragingMethod : ETranslationAveragingMethod
  bHtmlReport : Bool
  bRefineFocalAndPP : Bool
  bRefineDisto : Bool
  deriving DecidableEq, Repr

/-- One observable action of `main`, with the values passed and, for calls
whose result `main` inspects, the value returned. -/
inductive Event where
  | cout (text : String)
  | cerr (text : String)
  | folder_exists (dir : String) (ret : Bool)
  | folder_create (dir : String)
  | GlobalReconstructionEngine (sSfM_Data_Filename sMatchesDir sOutDir : String)
      (eRotationAveragingMethod : ERotationAveragingMethod)
      (eTranslationAveragingMethod : ETranslationAveragingMethod)
      (bHtmlReport : Bool)
  | setRefineFocalAndPP (b : Bool)
  | setRefineDisto (b : Bool)
  | Process (ret : Bool)
  | ColorizeTracks
  | exportToPly (sFileName : String) (pvec_color : ColorPtr)
  | ExportToOpenMVGFormat (sOutDirectory : String) (vec_fileNames : List String)
      (sImagePath : String) (pvec_color : ColorPtr) (flag : Bool)
      (sComment : String) (ret : Bool)
  deriving DecidableEq, Repr

/-- The collaborators of `main`, none of which is defined in the translated
file.  `Process` and `getFilenamesVector` depend on the engine object, which
is determined by its configuration. The arguments `getImagesSize()` and
`getTracks()` of `ExportToOpenMVGFormat` are engine accessors passed through
unchanged and are not represented. -/
structure Env where
  cmd_process : List String → Except String (List OptArg)
  folder_exists : String → Bool
  create_filespec : String → String → String → String
  folder_part : String → String
  folder_append_separator : String → String
  Process : EngineConfig → Bool
  getFilenamesVector : EngineConfig → List String
  ExportToOpenMVGFormat : String → List String → String → ColorPtr → Bool

/-- What an invocation of `main` yields: the returned exit code and the
ordered trace of its observable actions. -/
structure Result where
  exitCode : Int
  trace : List Event
  deriving DecidableEq, Repr

/-! ## Texts written by `main` -/

/-- Banner of lines 20-30. -/
def banner : String :=
  "\n"
  ++ "-----------------------------------------------------------\n"
  ++ "Global Structure from Motion:\n"
  ++ "-----------------------------------------------------------\n"
  ++ "Open Source implementation of the paper:\n"
  ++ "\"Global Fusion of Relative Motions for "
  ++ "Robust, Accurate and Scalable Structure from Motion.\"\n"
  ++ "Pierre Moulon, Pascal Monasse and Renaud Marlet. "
  ++ " ICCV 2013." ++ "\n"
  ++ "------------------------------------------------------------"
  ++ "\n"

/-- Usage text of lines 57-72. -/
def usage (argv0 : String) : String :=
  "Usage: " ++ argv0 ++ "\n"
  ++ "[-i|--input_file] path to a SfM_Data scene\n"
  ++ "[-m|--matchdir] path to the matches that corresponds to the provided SfM_Data scene\n"
  ++ "[-o|--outdir] path where the output data will be stored\n"
  ++ "[-c|--coloredPointCloud 0(default) or 1]\n"
  ++ "[-r|--rotationAveraging 2(default L2) or 1 (L1)]\n"
  ++ "[-t|--translationAveraging 1(default L1) or 2 (L2)]\n"
  ++ "[-f|--refineFocalAndPP \n"
  ++ "\t 0-> keep provided focal and principal point,\n"
  ++ "\t 1-> refine provided focal and principal point ] \n"
  ++ "[-d|--refineDisto \n"
  ++ "\t 0-> refine focal and principal point\n"
  ++ "\t 1-> refine focal, principal point and radial distortion factors.] \n"
  ++ "\n"
  ++ " ICCV 2013: => -r 2 -t 1"
  ++ "\n"

/-- Message of line 80. -/
def msgRotationInvalid : String := "\n Rotation averaging method is invalid\n"

/-- Message of line 86. -/
def msgTranslationInvalid : String := "\n Translation averaging method is invalid\n"

/-- Message of line 91. -/
def msgOutDirInvalid : String := "\nIt is an invalid output directory\n"

/-- Message of line 116; the elapsed time that follows it is a wall clock
reading and is not represented. -/
def msgElapsed : String := "\n Total Ac-Global-Sfm took (s): "

/-- Message of lines 133-134. -/
def msgExport (bColoredPointCloud : Bool) : String :=
  "\n" ++ "Export 3D scene to openMVG format" ++ "\n"
  ++ " -- Point cloud color: " ++ (if bColoredPointCloud then "ON" else "OFF") ++ "\n"

/-- Message of line 149. -/
def msgSaveError : String := "Error while saving the scene.\n"

/-! ## The translated function -/

/-- The engine object after lines 103-112: constructor arguments taken from
the local variables, then both setters. -/
def engineOf (v : Vars) : EngineConfig where
  sSfM_Data_Filename := v.sSfM_Data_Filename
  sMatchesDir := v.sMatchesDir
  sOutDir := v.sOutDir
  eRotationAveragingMethod := ⟨v.iRotationAveragingMethod⟩
  eTranslationAveragingMethod := ⟨v.iTranslationAveragingMethod⟩
  bHtmlReport := true
  bRefineFocalAndPP := v.bRefineFocalAndPP
  bRefineDisto := v.bRefineDisto

/-- The pointer expression `bColoredPointCloud ? &vec_tracksColor : NULL`
(lines 130 and 145). -/
def colorArg (bColoredPointCloud : Bool) : ColorPtr :=
  if bColoredPointCloud then ColorPtr.vec_tracksColor else ColorPtr.NULL

/-- Lines 136-151: the guarded scene export and its error message. -/
def exportScene (env : Env) (v : Vars) : List Event :=
  match env.getFilenamesVector (engineOf v) with
  | [] => []
  | file0 :: rest =>
    let sImaDirectory := env.folder_part file0
    let sOut := env.folder_append_separator v.sOutDir ++ "SfM_output"
    let ret := env.ExportToOpenMVGFormat sOut (file0 :: rest) sImaDirectory
      (colorArg v.bColoredPointCloud)
    Event.ExportToOpenMVGFormat sOut (file0 :: rest) sImaDirectory
        (colorArg v.bColoredPointCloud) true
        "generated by the Global OpenMVG Calibration Engine" ret
      :: (if !ret then [Event.cerr msgSaveError] else [])

/-- Lines 116-153: the body of `if (to3DEngine.Process())`. -/
def onSuccess (env : Env) (v : Vars) : List Event :=
  [Event.cout msgElapsed]
  ++ (if v.bColoredPointCloud then [Event.ColorizeTracks] else [])
  ++ [Event.exportToPly (env.create_filespec v.sOutDir "FinalColorized" ".ply")
        (colorArg v.bColoredPointCloud)]
  ++ [Event.cout (msgExport v.bColoredPointCloud)]
  ++ exportScene env v

/-- Lines 95-112: output folder preparation, engine construction and the two
setters. -/
def setup (env : Env) (v : Vars) : List Event :=
  (if !env.folder_exists v.sOutDir
    then [Event.folder_exists v.sOutDir false, Event.folder_create v.sOutDir]
    else [Event.folder_exists v.sOutDir true])
  ++ [Event.GlobalReconstructionEngine v.sSfM_Data_Filename v.sMatchesDir v.sOutDir
        ⟨v.iRotationAveragingMethod⟩ ⟨v.iTranslationAveragingMethod⟩ true,
      Event.setRefineFocalAndPP v.bRefineFocalAndPP,
      Event.setRefineDisto v.bRefineDisto]

/-- Lines 78-156: everything after the `try` block, on the values the
local variables hold once parsing has returned; `pre` is the trace so far. -/
def run (env : Env) (v : Vars) (pre : List Event) : Result :=
  if v.iRotationAveragingMethod < ROTATION_AVERAGING_L1 ∨
      v.iRotationAveragingMethod > ROTATION_AVERAGING_L2 then
    ⟨EXIT_FAILURE, pre ++ [Event.cerr msgRotationInvalid]⟩
  else if v.iTranslationAveragingMethod < TRANSLATION_AVERAGING_L1 ∨
      v.iTranslationAveragingMethod > TRANSLATION_AVERAGING_L2 then
    ⟨EXIT_FAILURE, pre ++ [Event.cerr msgTranslationInvalid]⟩
  else if v.sOutDir.isEmpty then
    ⟨EXIT_FAILURE, pre ++ [Event.cerr msgOutDirInvalid]⟩
  else
    if env.Process (engineOf v) then
      ⟨EXIT_SUCCESS, pre ++ setup env v ++ [Event.Process true] ++ onSuccess env v⟩
    else
      ⟨EXIT_FAILURE, pre ++ setup env v ++ [Event.Process false]⟩

/-- The `try` block of lines 53-55: `argc == 1` throws, otherwise the parser
runs on the arguments. -/
def parse (env : Env) (args : List String) : Except String (List OptArg) :=
  if (args.length : Int) + 1 = 1 then Except.error "Invalid parameter."
  else env.cmd_process args

/-- The function `main` (lines 17-157) started as `argv0 args...`, so that
`argc = args.length + 1`. -/
def main (argv0 : String) (args : List String) (env : Env) : Result :=
  match parse env args with
  | Except.error s =>
    ⟨EXIT_FAILURE, [Event.cout banner, Event.cerr (usage argv0), Event.cerr (s ++ "\n")]⟩
  | Except.ok opts => run env (applyOpts defaults opts) [Event.cout banner]

/-! ## Vocabulary of the statements -/

/-- The three guards of lines 78-93 all let the run through. -/
def passesValidation (v : Vars) : Prop :=
  ¬ (v.iRotationAveragingMethod < ROTATION_AVERAGING_L1 ∨
      v.iRotationAveragingMethod > ROTATION_AVERAGING_L2) ∧
  ¬ (v.iTranslationAveragingMethod < TRANSLATION_AVERAGING_L1 ∨
      v.iTranslationAveragingMethod > TRANSLATION_AVERAGING_L2) ∧
  v.sOutDir.isEmpty = false

instance (v : Vars) : Decidable (passesValidation v) := by
  unfold passesValidation; infer_instance

/-- A call of `stlplus::folder_create`. -/
def Event.isFolderCreate : Event → Bool
  | .folder_create _ => true
  | _ => false

/-- A call of a `stlplus` function that touches the file system. -/
def Event.isFileSystem : Event → Bool
  | .folder_exists _ _ => true
  | .folder_create _ => true
  | _ => false

/-- The construction of the `GlobalReconstructionEngine` object. -/
def Event.isEngineCtor : Event → Bool
  | .GlobalReconstructionEngine _ _ _ _ _ _ => true
  | _ => false

/-- A call of one of the two refinement setters. -/
def Event.isSetter : Event → Bool
  | .setRefineFocalAndPP _ => true
  | .setRefineDisto _ => true
  | _ => false

/-- A call of `Process()`. -/
def Event.isProcess : Event → Bool
  | .Process _ => true
  | _ => false

/-- A call of `ColorizeTracks`. -/
def Event.isColorize : Event → Bool
  | .ColorizeTracks => true
  | _ => false

/-- A call of `exportToPly`. -/
def Event.isExportToPly : Event → Bool
  | .exportToPly _ _ => true
  | _ => false

/-- A call of `ExportToOpenMVGFormat`. -/
def Event.isExportToOpenMVGFormat : Event → Bool
  | .ExportToOpenMVGFormat _ _ _ _ _ _ _ => true
  | _ => false

/-- A call of one of the two exporters or of `ColorizeTracks`. -/
def Event.isExportOrColorize (e : Event) : Bool :=
  e.isExportToPly || e.isExportToOpenMVGFormat || e.isColorize

/-- Any use of the engine object or of its reconstructor helper. -/
def Event.isEngine (e : Event) : Bool :=
  e.isEngineCtor || e.isSetter || e.isProcess || e.isExportOrColorize

/-- Stream output, the only kind of action that is not a collaborator call. -/
def Event.isStream : Event → Bool
  | .cout _ => true
  | .cerr _ => true
  | _ => false

/-- The colour pointer an exporter call received, if the action is one. -/
def Event.colorPtr? : Event → Option ColorPtr
  | .exportToPly _ p => some p
  | .ExportToOpenMVGFormat _ _ _ p _ _ _ => some p
  | _ => none

/-- The run ended at one of the two selector checks: it returned
`EXIT_FAILURE` and its last action was the message of line 80 or the
message of line 86. -/
def rejectedAtSelectorChecks (r : Result) : Prop :=
  r.exitCode = EXIT_FAILURE ∧
    (r.trace.getLast? = some (Event.cerr msgRotationInvalid) ∨
      r.trace.getLast? = some (Event.cerr msgTranslationInvalid))

instance (r : Result) : Decidable (rejectedAtSelectorChecks r) := by
  unfold rejectedAtSelectorChecks; infer_instance

/-- The value read for the last `-o` occurrence among the parsed options,
if there is one. -/
def givenOutDir (opts : List OptArg) : Option String :=
  (opts.filterMap fun x => match x with
    | .o s => some s
    | _ => none).getLast?

/-- The value read for the last `-f` occurrence among the parsed options,
if there is one. -/
def givenRefineFocalAndPP (opts : List OptArg) : Option Bool :=
  (opts.filterMap fun x => match x with
    | .f b => some b
    | _ => none).getLast?

/-- The value read for the last `-d` occurrence among the parsed options,
if there is one. -/
def givenRefineDisto (opts : List OptArg) : Option Bool :=
  (opts.filterMap fun x => match x with
    | .d b => some b
    | _ => none).getLast?

/-- The option is one of `-i`, `-m`, `-o`. -/
def OptArg.isPathOption : OptArg → Bool
  | .i _ => true
  | .m _ => true
  | .o _ => true
  | _ => false

/-! ## Concrete environments -/

/-- An environment in which the parser reads the options `opts`, the output
folder exists or not (`dirExists`), `Process()` returns `processRet`, the
engine lists the image files `files` and the scene export returns
`exportRet`. -/
def sampleEnv (opts : List OptArg) (dirExists processRet : Bool) (files : List String)
    (exportRet : Bool) : Env where
  cmd_process := fun _ => Except.ok opts
  folder_exists := fun _ => dirExists
  create_filespec := fun dir base ext => dir ++ "/" ++ base ++ ext
  folder_part := fun _ => "images/"
  folder_append_separator := fun dir => dir ++ "/"
  Process := fun _ => processRet
  getFilenamesVector := fun _ => files
  ExportToOpenMVGFormat := fun _ _ _ _ => exportRet

/-- An environment whose parser throws the message `msg`. -/
def throwingEnv (msg : String) : Env where
  cmd_process := fun _ => Except.error msg
  folder_exists := fun _ => true
  create_filespec := fun dir base ext => dir ++ "/" ++ base ++ ext
  folder_part := fun _ => "images/"
  folder_append_separator := fun dir => dir ++ "/"
  Process := fun _ => true
  getFilenamesVector := fun _ => []
  ExportToOpenMVGFormat := fun _ _ _ _ => true

/-! ## Basic facts about the translated function -/

theorem parse_nil (env : Env) : parse env [] = Except.error "Invalid parameter." := by
  simp [parse]

theorem parse_of_ne_nil (env : Env) (args : List String) (h : args ≠ []) :
    parse env args = env.cmd_process args := by
  cases args with
  | nil => exact absurd rfl h
  | cons a as =>
    have hc : ¬ ((((a :: as).length : Nat) : Int) + 1 = 1) := by
      simp only [List.length_cons]; push_cast; omega
    rw [parse, if_neg hc]

theorem main_nil (argv0 : String) (env : Env) :
    main argv0 [] env = ⟨EXIT_FAILURE,
      [Event.cout banner, Event.cerr (usage argv0),
        Event.cerr ("Invalid parameter." ++ "\n")]⟩ := by
  simp [main, parse_nil]

theorem main_of_error (argv0 : String) (args : List String) (env : Env) (s : String)
    (hargs : args ≠ []) (h : env.cmd_process args = Except.error s) :
    main argv0 args env = ⟨EXIT_FAILURE,
      [Event.cout banner, Event.cerr (usage argv0), Event.cerr (s ++ "\n")]⟩ := by
  simp [main, parse_of_ne_nil env args hargs, h]

theorem main_of_ok (argv0 : String) (args : List String) (env : Env) (opts : List OptArg)
    (hargs : args ≠ []) (h : env.cmd_process args = Except.ok opts) :
    main argv0 args env = run env (applyOpts defaults opts) [Event.cout banner] := by
  simp [main, parse_of_ne_nil env args hargs, h]

theorem passesValidation_iff (v : Vars) :
    passesValidation v ↔
      (v.iRotationAveragingMethod = 1 ∨ v.iRotationAveragingMethod = 2) ∧
      (v.iTranslationAveragingMethod = 1 ∨ v.iTranslationAveragingMethod = 2) ∧
      v.sOutDir ≠ "" := by
  have hs : v.sOutDir.isEmpty = false ↔ v.sOutDir ≠ "" := by
    rw [Ne, ← String.isEmpty_iff]; simp
  unfold passesValidation ROTATION_AVERAGING_L1 ROTATION_AVERAGING_L2
    TRANSLATION_AVERAGING_L1 TRANSLATION_AVERAGING_L2
  rw [hs]
  constructor
  · rintro ⟨h1, h2, h3⟩
    exact ⟨by omega, by omega, h3⟩
  · rintro ⟨h1, h2, h3⟩
    exact ⟨by omega, by omega, h3⟩

theorem run_of_valid (env : Env) (v : Vars) (pre : List Event) (h : passesValidation v) :
    run env v pre =
      if env.Process (engineOf v) then
        ⟨EXIT_SUCCESS, pre ++ setup env v ++ [Event.Process true] ++ onSuccess env v⟩
      else
        ⟨EXIT_FAILURE, pre ++ setup env v ++ [Event.Process false]⟩ := by
  obtain ⟨h1, h2, h3⟩ := h
  simp only [run, if_neg h1, if_neg h2, h3]
  simp

theorem run_of_invalid (env : Env) (v : Vars) (pre : List Event) (h : ¬ passesValidation v) :
    (run env v pre).exitCode = EXIT_FAILURE ∧
      ((run env v pre).trace = pre ++ [Event.cerr msgRotationInvalid] ∨
       (run env v pre).trace = pre ++ [Event.cerr msgTranslationInvalid] ∨
       (run env v pre).trace = pre ++ [Event.cerr msgOutDirInvalid]) := by
  unfold run
  split
  · simp
  · split
    · simp
    · split
      · simp
      · rename_i h1 h2 h3
        exact absurd ⟨h1, h2, by simpa using h3⟩ h

theorem exitCode_run (env : Env) (v : Vars) (pre : List Event) :
    (run env v pre).exitCode =
      if passesValidation v ∧ env.Process (engineOf v) = true then EXIT_SUCCESS
      else EXIT_FAILURE := by
  by_cases hv : passesValidation v
  · rw [run_of_valid env v pre hv]
    by_cases hp : env.Process (engineOf v) = true
    · simp [hp, hv]
    · simp [hp]
  · rw [(run_of_invalid env v pre hv).1]
    simp [hv]

theorem run_rotation_invalid (env : Env) (v : Vars) (pre : List Event)
    (h : ¬ (v.iRotationAveragingMethod = 1 ∨ v.iRotationAveragingMethod = 2)) :
    run env v pre = ⟨EXIT_FAILURE, pre ++ [Event.cerr msgRotationInvalid]⟩ := by
  have hc : v.iRotationAveragingMethod < ROTATION_AVERAGING_L1 ∨
      v.iRotationAveragingMethod > ROTATION_AVERAGING_L2 := by
    unfold ROTATION_AVERAGING_L1 ROTATION_AVERAGING_L2; omega
  rw [run, if_pos hc]

theorem run_translation_invalid (env : Env) (v : Vars) (pre : List Event)
    (hr : v.iRotationAveragingMethod = 1 ∨ v.iRotationAveragingMethod = 2)
    (h : ¬ (v.iTranslationAveragingMethod = 1 ∨ v.iTranslationAveragingMethod = 2)) :
    run env v pre = ⟨EXIT_FAILURE, pre ++ [Event.cerr msgTranslationInvalid]⟩ := by
  have hn : ¬ (v.iRotationAveragingMethod < ROTATION_AVERAGING_L1 ∨
      v.iRotationAveragingMethod > ROTATION_AVERAGING_L2) := by
    unfold ROTATION_AVERAGING_L1 ROTATION_AVERAGING_L2; omega
  have hc : v.iTranslationAveragingMethod < TRANSLATION_AVERAGING_L1 ∨
      v.iTranslationAveragingMethod > TRANSLATION_AVERAGING_L2 := by
    unfold TRANSLATION_AVERAGING_L1 TRANSLATION_AVERAGING_L2; omega
  rw [run, if_neg hn, if_pos hc]

theorem run_outdir_empty (env : Env) (v : Vars) (pre : List Event)
    (hr : v.iRotationAveragingMethod = 1 ∨ v.iRotationAveragingMethod = 2)
    (ht : v.iTranslationAveragingMethod = 1 ∨ v.iTranslationAveragingMethod = 2)
    (h : v.sOutDir = "") :
    run env v pre = ⟨EXIT_FAILURE, pre ++ [Event.cerr msgOutDirInvalid]⟩ := by
  have hn : ¬ (v.iRotationAveragingMethod < ROTATION_AVERAGING_L1 ∨
      v.iRotationAveragingMethod > ROTATION_AVERAGING_L2) := by
    unfold ROTATION_AVERAGING_L1 ROTATION_AVERAGING_L2; omega
  have hm : ¬ (v.iTranslationAveragingMethod < TRANSLATION_AVERAGING_L1 ∨
      v.iTranslationAveragingMethod > TRANSLATION_AVERAGING_L2) := by
    unfold TRANSLATION_AVERAGING_L1 TRANSLATION_AVERAGING_L2; omega
  have he : v.sOutDir.isEmpty = true := (String.isEmpty_iff _).2 h
  rw [run, if_neg hn, if_neg hm, if_pos he]

theorem getLast?_append_of_some {α : Type} (l₁ l₂ : List α) (e : α)
    (h : l₂.getLast? = some e) : (l₁ ++ l₂).getLast? = some e := by
  rw [List.getLast?_append, h]; rfl

/-- The last action of the scene export stage is never a validation message. -/
theorem getLast_onSuccess (env : Env) (v : Vars) :
    ∃ e, (onSuccess env v).getLast? = some e ∧
      e ≠ Event.cerr msgRotationInvalid ∧ e ≠ Event.cerr msgTranslationInvalid ∧
      e ≠ Event.cerr msgOutDirInvalid := by
  have hs1 : msgSaveError ≠ msgRotationInvalid := by decide
  have hs2 : msgSaveError ≠ msgTranslationInvalid := by decide
  have hs3 : msgSaveError ≠ msgOutDirInvalid := by decide
  unfold onSuccess exportScene
  cases hf : env.getFilenamesVector (engineOf v) with
  | nil =>
    refine ⟨Event.cout (msgExport v.bColoredPointCloud), ?_, by simp, by simp, by simp⟩
    rw [List.append_nil]
    exact getLast?_append_of_some _ _ _ rfl
  | cons f0 rest =>
    cases hr : env.ExportToOpenMVGFormat (env.folder_append_separator v.sOutDir ++ "SfM_output")
      (f0 :: rest) (env.folder_part f0) (colorArg v.bColoredPointCloud) with
    | true =>
      refine ⟨Event.ExportToOpenMVGFormat (env.folder_append_separator v.sOutDir ++ "SfM_output")
        (f0 :: rest) (env.folder_part f0) (colorArg v.bColoredPointCloud) true
        "generated by the Global OpenMVG Calibration Engine" true,
        getLast?_append_of_some _ _ _ ?_, by simp, by simp, by simp⟩
      simp only [hr]
      rfl
    | false =>
      refine ⟨Event.cerr msgSaveError, getLast?_append_of_some _ _ _ ?_,
        by simp [hs1], by simp [hs2], by simp [hs3]⟩
      simp only [hr]
      rfl

theorem applyOpts_concat (v : Vars) (xs : List OptArg) (x : OptArg) :
    applyOpts v (xs ++ [x]) = applyOpt (applyOpts v xs) x := by
  simp [applyOpts, List.foldl_append]

theorem applyOpts_sOutDir (v : Vars) (opts : List OptArg) :
    (applyOpts v opts).sOutDir = (givenOutDir opts).getD v.sOutDir := by
  induction opts using List.reverseRecOn with
  | nil => rfl
  | append_singleton xs x ih =>
    rw [applyOpts_concat]
    unfold givenOutDir at ih ⊢
    cases x <;> simp [applyOpt, List.filterMap_append, ih]

theorem applyOpts_bRefineFocalAndPP (v : Vars) (opts : List OptArg) :
    (applyOpts v opts).bRefineFocalAndPP =
      (givenRefineFocalAndPP opts).getD v.bRefineFocalAndPP := by
  induction opts using List.reverseRecOn with
  | nil => rfl
  | append_singleton xs x ih =>
    rw [applyOpts_concat]
    unfold givenRefineFocalAndPP at ih ⊢
    cases x <;> simp [applyOpt, List.filterMap_append, ih]

theorem applyOpts_bRefineDisto (v : Vars) (opts : List OptArg) :
    (applyOpts v opts).bRefineDisto = (givenRefineDisto opts).getD v.bRefineDisto := by
  induction opts using List.reverseRecOn with
  | nil => rfl
  | append_singleton xs x ih =>
    rw [applyOpts_concat]
    unfold givenRefineDisto at ih ⊢
    cases x <;> simp [applyOpt, List.filterMap_append, ih]

/-- Options `-i`, `-m`, `-o` leave the five other variables untouched. -/
theorem applyOpts_pathOptions (v : Vars) (opts : List OptArg)
    (h : ∀ x ∈ opts, x.isPathOption = true) :
    (applyOpts v opts).bColoredPointCloud = v.bColoredPointCloud ∧
    (applyOpts v opts).iRotationAveragingMethod = v.iRotationAveragingMethod ∧
    (applyOpts v opts).iTranslationAveragingMethod = v.iTranslationAveragingMethod ∧
    (applyOpts v opts).bRefineFocalAndPP = v.bRefineFocalAndPP ∧
    (applyOpts v opts).bRefineDisto = v.bRefineDisto := by
  induction opts using List.reverseRecOn with
  | nil => exact ⟨rfl, rfl, rfl, rfl, rfl⟩
  | append_singleton xs x ih =>
    have hx : x.isPathOption = true := h x (by simp)
    have ih := ih (fun y hy => h y (by simp [hy]))
    rw [applyOpts_concat]
    cases x <;> simp_all [applyOpt, OptArg.isPathOption]

/-- The actions of lines 95-112 are the folder test, at most a folder
creation, the engine construction and the two setters. -/
theorem mem_setup (env : Env) (v : Vars) (e : Event) (h : e ∈ setup env v) :
    e.isStream = false ∧ e.isProcess = false ∧ e.isExportOrColorize = false ∧
      e.colorPtr? = none := by
  unfold setup at h
  cases hf : env.folder_exists v.sOutDir <;>
    simp only [hf, Bool.not_false, Bool.not_true, if_true, Bool.false_eq_true, if_false,
      List.mem_append, List.mem_cons, List.mem_singleton, List.not_mem_nil, or_false] at h
  · rcases h with (rfl | rfl) | rfl | rfl | rfl <;> exact ⟨rfl, rfl, rfl, rfl⟩
  · rcases h with rfl | rfl | rfl | rfl <;> exact ⟨rfl, rfl, rfl, rfl⟩

/-- The actions of lines 136-151 are at most one scene export and its
error message. -/
theorem mem_exportScene (env : Env) (v : Vars) (e : Event) (h : e ∈ exportScene env v) :
    e.isFileSystem = false ∧ e.isEngineCtor = false ∧ e.isSetter = false ∧
      e.isProcess = false ∧ e.isExportToPly = false ∧ e.isColorize = false ∧
      (e.colorPtr? = none ∨ e.colorPtr? = some (colorArg v.bColoredPointCloud)) := by
  unfold exportScene at h
  cases hf : env.getFilenamesVector (engineOf v) with
  | nil => simp [hf] at h
  | cons f0 rest =>
    simp only [hf, List.mem_cons] at h
    rcases h with h | h
    · subst h
      exact ⟨rfl, rfl, rfl, rfl, rfl, rfl, Or.inr rfl⟩
    · split at h
      · simp only [List.mem_singleton] at h
        subst h
        exact ⟨rfl, rfl, rfl, rfl, rfl, rfl, Or.inl rfl⟩
      · simp at h

/-- The actions of lines 116-153 touch neither the file system helpers nor
the engine set-up, and every exporter call receives the pointer selected by
the colour flag. -/
theorem mem_onSuccess (env : Env) (v : Vars) (e : Event) (h : e ∈ onSuccess env v) :
    e.isFileSystem = false ∧ e.isEngineCtor = false ∧ e.isSetter = false ∧
      e.isProcess = false ∧
      (e.colorPtr? = none ∨ e.colorPtr? = some (colorArg v.bColoredPointCloud)) := by
  unfold onSuccess at h
  simp only [List.mem_append, List.mem_singleton] at h
  rcases h with (((h | h) | h) | h) | h
  · subst h
    exact ⟨rfl, rfl, rfl, rfl, Or.inl rfl⟩
  · split at h
    · simp only [List.mem_singleton] at h
      subst h
      exact ⟨rfl, rfl, rfl, rfl, Or.inl rfl⟩
    · simp at h
  · subst h
    exact ⟨rfl, rfl, rfl, rfl, Or.inr rfl⟩
  · subst h
    exact ⟨rfl, rfl, rfl, rfl, Or.inl rfl⟩
  · obtain ⟨h1, h2, h3, h4, -, -, h7⟩ := mem_exportScene env v e h
    exact ⟨h1, h2, h3, h4, h7⟩

/-- The three shapes a run of `main` can take: a rejected command line or
configuration (stream output only), a failed pipeline, a successful one. -/
theorem main_shape (argv0 : String) (args : List String) (env : Env) :
    ((main argv0 args env).exitCode = EXIT_FAILURE ∧
      ∀ e ∈ (main argv0 args env).trace, e.isStream = true) ∨
    (∃ v, main argv0 args env =
      ⟨EXIT_FAILURE, [Event.cout banner] ++ setup env v ++ [Event.Process false]⟩) ∨
    (∃ v, main argv0 args env =
      ⟨EXIT_SUCCESS,
        [Event.cout banner] ++ setup env v ++ [Event.Process true] ++ onSuccess env v⟩) := by
  by_cases hargs : args = []
  · subst hargs
    rw [main_nil]
    exact Or.inl ⟨rfl, by simp [Event.isStream]⟩
  · cases hp : env.cmd_process args with
    | error s =>
      rw [main_of_error argv0 args env s hargs hp]
      exact Or.inl ⟨rfl, by simp [Event.isStream]⟩
    | ok opts =>
      rw [main_of_ok argv0 args env opts hargs hp]
      by_cases hv : passesValidation (applyOpts defaults opts)
      · rw [run_of_valid env _ _ hv]
        cases env.Process (engineOf (applyOpts defaults opts)) with
        | false => exact Or.inr (Or.inl ⟨applyOpts defaults opts, by simp⟩)
        | true => exact Or.inr (Or.inr ⟨applyOpts defaults opts, by simp⟩)
      · obtain ⟨he, ht⟩ := run_of_invalid env (applyOpts defaults opts) [Event.cout banner] hv
        refine Or.inl ⟨he, ?_⟩
        rcases ht with ht | ht | ht <;> rw [ht] <;> simp [Event.isStream]

/-- A stream action is no collaborator call. -/
theorem not_call_of_isStream (e : Event) (h : e.isStream = true) :
    e.isFileSystem = false ∧ e.isFolderCreate = false ∧ e.isEngine = false ∧
      e.isExportOrColorize = false ∧ e.isProcess = false ∧ e.colorPtr? = none := by
  revert h
  cases e <;> intro h <;> first | exact ⟨rfl, rfl, rfl, rfl, rfl, rfl⟩ | cases h

theorem filter_isSetter_setup (env : Env) (v : Vars) :
    (setup env v).filter Event.isSetter =
      [Event.setRefineFocalAndPP v.bRefineFocalAndPP, Event.setRefineDisto v.bRefineDisto] := by
  unfold setup
  cases env.folder_exists v.sOutDir <;> rfl

theorem filter_isEngineCtor_setup (env : Env) (v : Vars) :
    (setup env v).filter Event.isEngineCtor =
      [Event.GlobalReconstructionEngine v.sSfM_Data_Filename v.sMatchesDir v.sOutDir
        ⟨v.iRotationAveragingMethod⟩ ⟨v.iTranslationAveragingMethod⟩ true] := by
  unfold setup
  cases env.folder_exists v.sOutDir <;> rfl

theorem filter_isProcess_setup (env : Env) (v : Vars) :
    (setup env v).filter Event.isProcess = [] := by
  unfold setup
  cases env.folder_exists v.sOutDir <;> rfl

theorem filter_isSetter_onSuccess (env : Env) (v : Vars) :
    (onSuccess env v).filter Event.isSetter = [] := by
  rw [List.filter_eq_nil_iff]
  intro e he
  simp [(mem_onSuccess env v e he).2.2.1]

theorem filter_isEngineCtor_onSuccess (env : Env) (v : Vars) :
    (onSuccess env v).filter Event.isEngineCtor = [] := by
  rw [List.filter_eq_nil_iff]
  intro e he
  simp [(mem_onSuccess env v e he).2.1]

theorem filter_isProcess_onSuccess (env : Env) (v : Vars) :
    (onSuccess env v).filter Event.isProcess = [] := by
  rw [List.filter_eq_nil_iff]
  intro e he
  simp [(mem_onSuccess env v e he).2.2.2.1]

/-- On a validated configuration the two setters are called exactly once
each, in source order, with the values of the two flag variables. -/
theorem filter_isSetter_run (env : Env) (v : Vars) (h : passesValidation v) :
    (run env v [Event.cout banner]).trace.filter Event.isSetter =
      [Event.setRefineFocalAndPP v.bRefineFocalAndPP, Event.setRefineDisto v.bRefineDisto] := by
  rw [run_of_valid env v _ h]
  cases env.Process (engineOf v) <;>
    simp [List.filter_append, filter_isSetter_setup, filter_isSetter_onSuccess,
      Event.isSetter, List.filter_cons]

/-- On a validated configuration the engine is constructed exactly once,
from the variables as they stand. -/
theorem filter_isEngineCtor_run (env : Env) (v : Vars) (h : passesValidation v) :
    (run env v [Event.cout banner]).trace.filter Event.isEngineCtor =
      [Event.GlobalReconstructionEngine v.sSfM_Data_Filename v.sMatchesDir v.sOutDir
        ⟨v.iRotationAveragingMethod⟩ ⟨v.iTranslationAveragingMethod⟩ true] := by
  rw [run_of_valid env v _ h]
  cases env.Process (engineOf v) <;>
    simp [List.filter_append, filter_isEngineCtor_setup, filter_isEngineCtor_onSuccess,
      Event.isEngineCtor, List.filter_cons]

/-- On a validated configuration `Process()` is called exactly once, on the
engine configured from the variables. -/
theorem filter_isProcess_run (env : Env) (v : Vars) (h : passesValidation v) :
    (run env v [Event.cout banner]).trace.filter Event.isProcess =
      [Event.Process (env.Process (engineOf v))] := by
  rw [run_of_valid env v _ h]
  cases env.Process (engineOf v) <;>
    simp [List.filter_append, filter_isProcess_setup, filter_isProcess_onSuccess,
      Event.isProcess, List.filter_cons]

/-- A `Process()` call that returned true is in the trace only when the
configuration passed validation and the engine reported success. -/
theorem valid_of_process_true_mem (env : Env) (v : Vars)
    (h : Event.Process true ∈ (run env v [Event.cout banner]).trace) :
    passesValidation v ∧ env.Process (engineOf v) = true := by
  by_cases hv : passesValidation v
  · refine ⟨hv, ?_⟩
    have hm : Event.Process true ∈
        (run env v [Event.cout banner]).trace.filter Event.isProcess :=
      List.mem_filter.2 ⟨h, rfl⟩
    rw [filter_isProcess_run env v hv, List.mem_singleton] at hm
    cases hp : env.Process (engineOf v) with
    | true => rfl
    | false => rw [hp] at hm; cases hm
  · exfalso
    obtain ⟨-, ht⟩ := run_of_invalid env v [Event.cout banner] hv
    rcases ht with ht | ht | ht <;> rw [ht] at h <;> simp at h

theorem run_of_success (env : Env) (v : Vars) (pre : List Event)
    (hv : passesValidation v) (hp : env.Process (engineOf v) = true) :
    run env v pre =
      ⟨EXIT_SUCCESS, pre ++ setup env v ++ [Event.Process true] ++ onSuccess env v⟩ := by
  rw [run_of_valid env v pre hv, if_pos hp]

/-- The colour flag takes no part in validation or in the engine
configuration. -/
theorem exitCode_run_colored (env : Env) (v : Vars) (b : Bool) (pre pre2 : List Event) :
    (run env (applyOpt v (OptArg.c b)) pre).exitCode = (run env v pre2).exitCode := by
  rw [exitCode_run, exitCode_run]
  rfl

theorem filter_isExportToPly_setup (env : Env) (v : Vars) :
    (setup env v).filter Event.isExportToPly = [] := by
  unfold setup
  cases env.folder_exists v.sOutDir <;> rfl

theorem filter_isExportToOpenMVGFormat_setup (env : Env) (v : Vars) :
    (setup env v).filter Event.isExportToOpenMVGFormat = [] := by
  unfold setup
  cases env.folder_exists v.sOutDir <;> rfl

theorem filter_isExportToPly_exportScene (env : Env) (v : Vars) :
    (exportScene env v).filter Event.isExportToPly = [] := by
  rw [List.filter_eq_nil_iff]
  intro e he
  simp [(mem_exportScene env v e he).2.2.2.2.1]

/-- `exportToPly` is called exactly once in the body of lines 116-153. -/
theorem filter_isExportToPly_onSuccess (env : Env) (v : Vars) :
    (onSuccess env v).filter Event.isExportToPly =
      [Event.exportToPly (env.create_filespec v.sOutDir "FinalColorized" ".ply")
        (colorArg v.bColoredPointCloud)] := by
  unfold onSuccess
  cases v.bColoredPointCloud <;>
    simp [List.filter_append, List.filter_cons, filter_isExportToPly_exportScene,
      Event.isExportToPly]

/-- The setup actions of lines 95-112 write nothing to the error stream. -/
theorem cerr_not_mem_setup (env : Env) (v : Vars) (text : String) :
    Event.cerr text ∉ setup env v := fun h => by
  have := (mem_setup env v _ h).1
  cases this

/-! ## Exit code -/

/-- C1: the exit code of `main` is `EXIT_SUCCESS` (0) exactly when at least
one argument was given, option parsing did not throw, the rotation selector is
1 or 2, the translation selector is 1 or 2, the output directory is not the
empty string and `Process()` returns true for the engine so configured; in
every other case it is `EXIT_FAILURE`, which is not 0. -/
theorem C1_exit_code (argv0 : String) (args : List String) (env : Env) :
    ((main argv0 args env).exitCode = EXIT_SUCCESS ↔
      args ≠ [] ∧ ∃ opts, env.cmd_process args = Except.ok opts ∧
        ((applyOpts defaults opts).iRotationAveragingMethod = 1 ∨
          (applyOpts defaults opts).iRotationAveragingMethod = 2) ∧
        ((applyOpts defaults opts).iTranslationAveragingMethod = 1 ∨
          (applyOpts defaults opts).iTranslationAveragingMethod = 2) ∧
        (applyOpts defaults opts).sOutDir ≠ "" ∧
        env.Process (engineOf (applyOpts defaults opts)) = true) ∧
    ((main argv0 args env).exitCode ≠ EXIT_SUCCESS →
      (main argv0 args env).exitCode = EXIT_FAILURE) ∧
    EXIT_SUCCESS = 0 ∧ EXIT_FAILURE ≠ 0 := by
  refine ⟨?_, ?_, rfl, by decide⟩
  · by_cases hargs : args = []
    · subst hargs
      rw [main_nil]
      simp [EXIT_SUCCESS, EXIT_FAILURE]
    · cases hp : env.cmd_process args with
      | error s =>
        rw [main_of_error argv0 args env s hargs hp]
        simp [EXIT_SUCCESS, EXIT_FAILURE]
      | ok opts =>
        rw [main_of_ok argv0 args env opts hargs hp, exitCode_run]
        constructor
        · intro h
          by_cases hc : passesValidation (applyOpts defaults opts) ∧
              env.Process (engineOf (applyOpts defaults opts)) = true
          · obtain ⟨hv, hpr⟩ := hc
            obtain ⟨h1, h2, h3⟩ := (passesValidation_iff _).1 hv
            exact ⟨hargs, opts, rfl, h1, h2, h3, hpr⟩
          · rw [if_neg hc] at h
            exact absurd h (by decide)
        · rintro ⟨-, opts', hopts, h1, h2, h3, hpr⟩
          cases hopts
          rw [if_pos ⟨(passesValidation_iff _).2 ⟨h1, h2, h3⟩, hpr⟩]
  · intro hne
    by_cases hargs : args = []
    · subst hargs
      rw [main_nil]
    · cases hp : env.cmd_process args with
      | error s => rw [main_of_error argv0 args env s hargs hp]
      | ok opts =>
        rw [main_of_ok argv0 args env opts hargs hp, exitCode_run] at hne ⊢
        split
        · rename_i hc
          rw [if_pos hc] at hne
          exact absurd rfl hne
        · rfl

/-! ## Configuration errors -/

/-- C2: for every parsed configuration, `main` returns `EXIT_FAILURE` at one
of the two selector checks if and only if the rotation averaging integer is
not in {1,2} or the translation averaging integer is not in {1,2}; and
whenever it does, the trace holds no `folder_create`, no engine construction
and no `Process()` call. -/
theorem C2_selectors_rejected (argv0 : String) (args : List String) (env : Env)
    (opts : List OptArg) (hargs : args ≠ [])
    (hparse : env.cmd_process args = Except.ok opts) :
    (rejectedAtSelectorChecks (main argv0 args env) ↔
      ¬ ((applyOpts defaults opts).iRotationAveragingMethod = 1 ∨
          (applyOpts defaults opts).iRotationAveragingMethod = 2) ∨
      ¬ ((applyOpts defaults opts).iTranslationAveragingMethod = 1 ∨
          (applyOpts defaults opts).iTranslationAveragingMethod = 2)) ∧
    (rejectedAtSelectorChecks (main argv0 args env) →
      ∀ e ∈ (main argv0 args env).trace,
        e.isFolderCreate = false ∧ e.isEngineCtor = false ∧ e.isProcess = false) := by
  have ho1 : msgOutDirInvalid ≠ msgRotationInvalid := by decide
  have ho2 : msgOutDirInvalid ≠ msgTranslationInvalid := by decide
  have hrt : msgRotationInvalid ≠ msgTranslationInvalid := by decide
  rw [main_of_ok argv0 args env opts hargs hparse]
  generalize applyOpts defaults opts = v
  by_cases hr : v.iRotationAveragingMethod = 1 ∨ v.iRotationAveragingMethod = 2
  · by_cases ht : v.iTranslationAveragingMethod = 1 ∨ v.iTranslationAveragingMethod = 2
    · have hno : ¬ rejectedAtSelectorChecks (run env v [Event.cout banner]) := by
        by_cases ho : v.sOutDir = ""
        · rw [run_outdir_empty env v _ hr ht ho]
          simp [rejectedAtSelectorChecks, ho1, ho2]
        · have hv : passesValidation v := (passesValidation_iff v).2 ⟨hr, ht, ho⟩
          rw [run_of_valid env v _ hv]
          cases env.Process (engineOf v) with
          | false =>
            have hl : ([Event.cout banner] ++ setup env v ++ [Event.Process false]).getLast?
                = some (Event.Process false) :=
              getLast?_append_of_some _ _ _ rfl
            simp only [rejectedAtSelectorChecks, Bool.false_eq_true, if_false, hl,
              Option.some.injEq]
            rintro ⟨-, h | h⟩ <;> cases h
          | true =>
            obtain ⟨e, he, h1, h2, -⟩ := getLast_onSuccess env v
            have hl := getLast?_append_of_some
              ([Event.cout banner] ++ setup env v ++ [Event.Process true]) _ e he
            simp only [rejectedAtSelectorChecks, if_true, hl, Option.some.injEq]
            rintro ⟨-, h | h⟩
            · exact h1 h
            · exact h2 h
      exact ⟨⟨fun h => absurd h hno, fun h => by tauto⟩, fun h => absurd h hno⟩
    · rw [run_translation_invalid env v _ hr ht]
      refine ⟨⟨fun _ => Or.inr ht, fun _ => ?_⟩, fun _ => ?_⟩
      · simp [rejectedAtSelectorChecks]
      · simp [Event.isFolderCreate, Event.isEngineCtor, Event.isProcess]
  · rw [run_rotation_invalid env v _ hr]
    refine ⟨⟨fun _ => Or.inl hr, fun _ => ?_⟩, fun _ => ?_⟩
    · simp [rejectedAtSelectorChecks]
    · simp [Event.isFolderCreate, Event.isEngineCtor, Event.isProcess]

/-- Witness of C2: `-r 3` is rejected at the rotation check, with no folder
creation, engine construction or `Process()` call. -/
theorem C2_selectors_rejected_witness :
    rejectedAtSelectorChecks
        (main "main_GlobalSfM" ["-r", "3", "-o", "out"]
          (sampleEnv [OptArg.r 3, OptArg.o "out"] false true [] true)) ∧
      ∀ e ∈ (main "main_GlobalSfM" ["-r", "3", "-o", "out"]
          (sampleEnv [OptArg.r 3, OptArg.o "out"] false true [] true)).trace,
        e.isFolderCreate = false ∧ e.isEngineCtor = false ∧ e.isProcess = false :=
  have h := C2_selectors_rejected "main_GlobalSfM" ["-r", "3", "-o", "out"]
    (sampleEnv [OptArg.r 3, OptArg.o "out"] false true [] true)
    [OptArg.r 3, OptArg.o "out"] (by decide) rfl
  have hr : rejectedAtSelectorChecks
      (main "main_GlobalSfM" ["-r", "3", "-o", "out"]
        (sampleEnv [OptArg.r 3, OptArg.o "out"] false true [] true)) :=
    h.1.2 (Or.inl (by decide))
  ⟨hr, h.2 hr⟩

/-- C3: when the output directory option is absent from the parsed options or
its last value is the empty string, `main` returns `EXIT_FAILURE` and its
trace holds no `folder_create`, no engine construction and no `Process()`
call, whatever the other options are (also when the command line has no
argument or its parsing throws). -/
theorem C3_missing_outdir (argv0 : String) (args : List String) (env : Env)
    (h : ∀ opts, args ≠ [] → env.cmd_process args = Except.ok opts →
      givenOutDir opts = none ∨ givenOutDir opts = some "") :
    (main argv0 args env).exitCode = EXIT_FAILURE ∧
      ∀ e ∈ (main argv0 args env).trace,
        e.isFolderCreate = false ∧ e.isEngineCtor = false ∧ e.isProcess = false := by
  by_cases hargs : args = []
  · subst hargs
    rw [main_nil]
    simp [Event.isFolderCreate, Event.isEngineCtor, Event.isProcess]
  · cases hp : env.cmd_process args with
    | error s =>
      rw [main_of_error argv0 args env s hargs hp]
      simp [Event.isFolderCreate, Event.isEngineCtor, Event.isProcess]
    | ok opts =>
      have ho : (applyOpts defaults opts).sOutDir = "" := by
        rw [applyOpts_sOutDir]
        rcases h opts hargs hp with h1 | h1 <;> rw [h1] <;> rfl
      have hv : ¬ passesValidation (applyOpts defaults opts) := fun hv =>
        ((passesValidation_iff _).1 hv).2.2 ho
      rw [main_of_ok argv0 args env opts hargs hp]
      obtain ⟨he, ht⟩ := run_of_invalid env (applyOpts defaults opts) [Event.cout banner] hv
      refine ⟨he, ?_⟩
      rcases ht with ht | ht | ht <;> rw [ht] <;>
        simp [Event.isFolderCreate, Event.isEngineCtor, Event.isProcess]

/-- Witness of C3: input file and matches directory are given, both
selectors are valid, no output directory is given. -/
theorem C3_missing_outdir_witness :
    (main "main_GlobalSfM" ["-i", "sfm_data.json", "-m", "matches"]
        (sampleEnv [OptArg.i "sfm_data.json", OptArg.m "matches"] true true [] true)).exitCode
      = EXIT_FAILURE ∧
    ∀ e ∈ (main "main_GlobalSfM" ["-i", "sfm_data.json", "-m", "matches"]
        (sampleEnv [OptArg.i "sfm_data.json", OptArg.m "matches"] true true [] true)).trace,
      e.isFolderCreate = false ∧ e.isEngineCtor = false ∧ e.isProcess = false :=
  C3_missing_outdir "main_GlobalSfM" ["-i", "sfm_data.json", "-m", "matches"]
    (sampleEnv [OptArg.i "sfm_data.json", OptArg.m "matches"] true true [] true)
    (fun opts _ hopts => by
      cases hopts
      exact Or.inl (by decide))

/-! ## Export only after a successful pipeline -/

/-- C4: every call of `exportToPly`, `ExportToOpenMVGFormat` or
`ColorizeTracks` in a run of `main` comes after a `Process()` call that
returned true, and no such call precedes it; when `Process()` returned false
the trace holds none of these calls and the exit code is `EXIT_FAILURE`. -/
theorem C4_export_only_after_success (argv0 : String) (args : List String) (env : Env) :
    (∀ e ∈ (main argv0 args env).trace, e.isExportOrColorize = true →
      ∃ pre post, (main argv0 args env).trace = pre ++ Event.Process true :: post ∧
        e ∈ post ∧ ∀ x ∈ pre, x.isExportOrColorize = false) ∧
    (Event.Process false ∈ (main argv0 args env).trace →
      (main argv0 args env).exitCode = EXIT_FAILURE ∧
        ∀ e ∈ (main argv0 args env).trace, e.isExportOrColorize = false) := by
  rcases main_shape argv0 args env with ⟨hexit, hs⟩ | ⟨v, hm⟩ | ⟨v, hm⟩
  · refine ⟨fun e he hx => ?_, fun _ => ⟨hexit, fun e he => ?_⟩⟩
    · have := (not_call_of_isStream e (hs e he)).2.2.2.1
      rw [this] at hx
      cases hx
    · exact (not_call_of_isStream e (hs e he)).2.2.2.1
  · rw [hm]
    have hall : ∀ e ∈ [Event.cout banner] ++ setup env v ++ [Event.Process false],
        e.isExportOrColorize = false := by
      intro e he
      simp only [List.mem_append, List.mem_singleton] at he
      rcases he with (he | he) | he
      · subst he; rfl
      · exact (mem_setup env v e he).2.2.1
      · subst he; rfl
    refine ⟨fun e he hx => ?_, fun _ => ⟨rfl, hall⟩⟩
    rw [hall e he] at hx
    cases hx
  · rw [hm]
    have hpre : ∀ e ∈ [Event.cout banner] ++ setup env v, e.isExportOrColorize = false := by
      intro e he
      simp only [List.mem_append, List.mem_singleton] at he
      rcases he with he | he
      · subst he; rfl
      · exact (mem_setup env v e he).2.2.1
    refine ⟨fun e he hx => ⟨[Event.cout banner] ++ setup env v, onSuccess env v, by simp,
      ?_, hpre⟩, fun hf => ?_⟩
    · simp only [List.mem_append, List.mem_singleton] at he
      rcases he with ((he | he) | he) | he
      · subst he; cases hx
      · rw [(mem_setup env v e he).2.2.1] at hx; cases hx
      · subst he; cases hx
      · exact he
    · exfalso
      simp only [List.mem_append, List.mem_singleton] at hf
      rcases hf with ((hf | hf) | hf) | hf
      · cases hf
      · have := (mem_setup env v _ hf).2.1
        cases this
      · cases hf
      · have := (mem_onSuccess env v _ hf).2.2.2.1
        cases this

/-! ## Forwarding of the configuration -/

/-- C5: for every pair of booleans `f`, `d` read for `-f` and `-d` on a command
line that passes validation, the setter calls of the run are exactly
`setRefineFocalAndPP(f)` followed by `setRefineDisto(d)`, for each of the four
combinations, and the engine is constructed exactly once with
`ERotationAveragingMethod(r)` and `ETranslationAveragingMethod(t)` for the
selector values `r`, `t`, both of which are 1 or 2. -/
theorem C5_flags_forwarded (argv0 : String) (args : List String) (env : Env)
    (opts : List OptArg) (f d : Bool) (hargs : args ≠ [])
    (hparse : env.cmd_process args = Except.ok opts)
    (hf : givenRefineFocalAndPP opts = some f) (hd : givenRefineDisto opts = some d)
    (hvalid : passesValidation (applyOpts defaults opts)) :
    (main argv0 args env).trace.filter Event.isSetter =
      [Event.setRefineFocalAndPP f, Event.setRefineDisto d] ∧
    (main argv0 args env).trace.filter Event.isEngineCtor =
      [Event.GlobalReconstructionEngine (applyOpts defaults opts).sSfM_Data_Filename
        (applyOpts defaults opts).sMatchesDir (applyOpts defaults opts).sOutDir
        (ERotationAveragingMethod.mk (applyOpts defaults opts).iRotationAveragingMethod)
        (ETranslationAveragingMethod.mk (applyOpts defaults opts).iTranslationAveragingMethod)
        true] ∧
    ((applyOpts defaults opts).iRotationAveragingMethod = 1 ∨
      (applyOpts defaults opts).iRotationAveragingMethod = 2) ∧
    ((applyOpts defaults opts).iTranslationAveragingMethod = 1 ∨
      (applyOpts defaults opts).iTranslationAveragingMethod = 2) := by
  have h1 : (applyOpts defaults opts).bRefineFocalAndPP = f := by
    rw [applyOpts_bRefineFocalAndPP, hf]; rfl
  have h2 : (applyOpts defaults opts).bRefineDisto = d := by
    rw [applyOpts_bRefineDisto, hd]; rfl
  obtain ⟨hr, ht, -⟩ := (passesValidation_iff _).1 hvalid
  rw [main_of_ok argv0 args env opts hargs hparse]
  refine ⟨?_, filter_isEngineCtor_run env _ hvalid, hr, ht⟩
  rw [filter_isSetter_run env _ hvalid, h1, h2]

/-- Witness of C5: `-f 0 -d 1` with `-r 1 -t 2`; the flags reach the engine as
(false, true) and the selectors as (1, 2). -/
theorem C5_flags_forwarded_witness :
    (main "main_GlobalSfM" ["-o", "out", "-r", "1", "-t", "2", "-f", "0", "-d", "1"]
        (sampleEnv [OptArg.o "out", OptArg.r 1, OptArg.t 2, OptArg.f false, OptArg.d true]
          true true [] true)).trace.filter Event.isSetter =
      [Event.setRefineFocalAndPP false, Event.setRefineDisto true] ∧
    (main "main_GlobalSfM" ["-o", "out", "-r", "1", "-t", "2", "-f", "0", "-d", "1"]
        (sampleEnv [OptArg.o "out", OptArg.r 1, OptArg.t 2, OptArg.f false, OptArg.d true]
          true true [] true)).trace.filter Event.isEngineCtor =
      [Event.GlobalReconstructionEngine "" "" "out" ⟨1⟩ ⟨2⟩ true] :=
  have h := C5_flags_forwarded "main_GlobalSfM"
    ["-o", "out", "-r", "1", "-t", "2", "-f", "0", "-d", "1"]
    (sampleEnv [OptArg.o "out", OptArg.r 1, OptArg.t 2, OptArg.f false, OptArg.d true]
      true true [] true)
    [OptArg.o "out", OptArg.r 1, OptArg.t 2, OptArg.f false, OptArg.d true] false true
    (by decide) rfl (by decide) (by decide) (by decide)
  ⟨h.1, h.2.1⟩

/-- Counterexample to C6 as stated: the command line `-o out -f 0 -d 1` passes
validation with `refineDisto = 1`, the pipeline succeeds, and the engine is
given `setRefineFocalAndPP(false)`, never `setRefineFocalAndPP(true)`. -/
theorem C6_refineDisto_usage_counterexample :
    (applyOpts defaults [OptArg.o "out", OptArg.f false, OptArg.d true]).bRefineDisto = true ∧
    passesValidation (applyOpts defaults [OptArg.o "out", OptArg.f false, OptArg.d true]) ∧
    (main "main_GlobalSfM" ["-o", "out", "-f", "0", "-d", "1"]
      (sampleEnv [OptArg.o "out", OptArg.f false, OptArg.d true] true true [] true)).exitCode
      = EXIT_SUCCESS ∧
    (main "main_GlobalSfM" ["-o", "out", "-f", "0", "-d", "1"]
      (sampleEnv [OptArg.o "out", OptArg.f false, OptArg.d true] true true [] true)).trace.filter
        Event.isSetter = [Event.setRefineFocalAndPP false, Event.setRefineDisto true] ∧
    Event.setRefineFocalAndPP true ∉
      (main "main_GlobalSfM" ["-o", "out", "-f", "0", "-d", "1"]
        (sampleEnv [OptArg.o "out", OptArg.f false, OptArg.d true] true true [] true)).trace := by
  decide

/-- C6 (amended): on every command line that passes validation the engine
receives the value of `refineFocalAndPP` through `setRefineFocalAndPP` and the
value of `refineDisto` through `setRefineDisto`, and nothing else through the
setters. With `refineFocalAndPP` true (its value when `-f` is not given),
`refineDisto = 1` configures focal, principal point and distortion refinement
(true, true) and `refineDisto = 0` configures focal and principal point
refinement (true, false), as the usage text says; with `refineFocalAndPP`
false the engine receives `setRefineFocalAndPP(false)` for either value of
`refineDisto`. -/
theorem C6_refineDisto_usage_amended (argv0 : String) (args : List String) (env : Env)
    (opts : List OptArg) (hargs : args ≠ [])
    (hparse : env.cmd_process args = Except.ok opts)
    (hvalid : passesValidation (applyOpts defaults opts)) :
    ((applyOpts defaults opts).bRefineFocalAndPP = true →
      (applyOpts defaults opts).bRefineDisto = true →
      (main argv0 args env).trace.filter Event.isSetter =
        [Event.setRefineFocalAndPP true, Event.setRefineDisto true]) ∧
    ((applyOpts defaults opts).bRefineFocalAndPP = true →
      (applyOpts defaults opts).bRefineDisto = false →
      (main argv0 args env).trace.filter Event.isSetter =
        [Event.setRefineFocalAndPP true, Event.setRefineDisto false]) ∧
    ((applyOpts defaults opts).bRefineFocalAndPP = false →
      (main argv0 args env).trace.filter Event.isSetter =
        [Event.setRefineFocalAndPP false,
          Event.setRefineDisto (applyOpts defaults opts).bRefineDisto]) ∧
    (givenRefineFocalAndPP opts = none → (applyOpts defaults opts).bRefineFocalAndPP = true) := by
  rw [main_of_ok argv0 args env opts hargs hparse, filter_isSetter_run env _ hvalid]
  refine ⟨fun h1 h2 => by rw [h1, h2], fun h1 h2 => by rw [h1, h2], fun h1 => by rw [h1],
    fun h => ?_⟩
  rw [applyOpts_bRefineFocalAndPP, h]
  rfl

/-- Witness of the amended C6: `-o out -d 0` without `-f` configures the
engine with (true, false). -/
theorem C6_refineDisto_usage_amended_witness :
    (main "main_GlobalSfM" ["-o", "out", "-d", "0"]
      (sampleEnv [OptArg.o "out", OptArg.d false] true true [] true)).trace.filter
        Event.isSetter = [Event.setRefineFocalAndPP true, Event.setRefineDisto false] :=
  (C6_refineDisto_usage_amended "main_GlobalSfM" ["-o", "out", "-d", "0"]
    (sampleEnv [OptArg.o "out", OptArg.d false] true true [] true)
    [OptArg.o "out", OptArg.d false] (by decide) rfl (by decide)).2.1 (by decide) (by decide)

/-- C7: on a command line that supplies nothing but `-i`, `-m` and `-o`
options, the last `-o` value being a non-empty directory `out`, the
configuration passes validation, the engine is constructed once with rotation
averaging 2 and translation averaging 1, the setters receive (true, true),
`Process()` is called once on that engine, and colorization is off:
`ColorizeTracks` is not called and no exporter receives the colour vector. -/
theorem C7_defaults (argv0 : String) (args : List String) (env : Env)
    (opts : List OptArg) (out : String) (hargs : args ≠ [])
    (hparse : env.cmd_process args = Except.ok opts)
    (honly : ∀ x ∈ opts, x.isPathOption = true)
    (hout : givenOutDir opts = some out) (hne : out ≠ "") :
    passesValidation (applyOpts defaults opts) ∧
    (main argv0 args env).trace.filter Event.isEngineCtor =
      [Event.GlobalReconstructionEngine (applyOpts defaults opts).sSfM_Data_Filename
        (applyOpts defaults opts).sMatchesDir out
        (ERotationAveragingMethod.mk 2) (ETranslationAveragingMethod.mk 1) true] ∧
    (main argv0 args env).trace.filter Event.isSetter =
      [Event.setRefineFocalAndPP true, Event.setRefineDisto true] ∧
    (main argv0 args env).trace.filter Event.isProcess =
      [Event.Process (env.Process
        { sSfM_Data_Filename := (applyOpts defaults opts).sSfM_Data_Filename
          sMatchesDir := (applyOpts defaults opts).sMatchesDir
          sOutDir := out
          eRotationAveragingMethod := ERotationAveragingMethod.mk 2
          eTranslationAveragingMethod := ETranslationAveragingMethod.mk 1
          bHtmlReport := true
          bRefineFocalAndPP := true
          bRefineDisto := true })] ∧
    (applyOpts defaults opts).bColoredPointCloud = false ∧
    Event.ColorizeTracks ∉ (main argv0 args env).trace ∧
    ∀ e ∈ (main argv0 args env).trace, e.colorPtr? ≠ some ColorPtr.vec_tracksColor := by
  obtain ⟨hc, hr, ht, hf, hd⟩ := applyOpts_pathOptions defaults opts honly
  have ho : (applyOpts defaults opts).sOutDir = out := by
    rw [applyOpts_sOutDir, hout]; rfl
  have hr2 : (applyOpts defaults opts).iRotationAveragingMethod = 2 := hr
  have ht1 : (applyOpts defaults opts).iTranslationAveragingMethod = 1 := ht
  have hf1 : (applyOpts defaults opts).bRefineFocalAndPP = true := hf
  have hd1 : (applyOpts defaults opts).bRefineDisto = true := hd
  have hc0 : (applyOpts defaults opts).bColoredPointCloud = false := hc
  have hvalid : passesValidation (applyOpts defaults opts) :=
    (passesValidation_iff _).2 ⟨Or.inr hr2, Or.inl ht1, by rw [ho]; exact hne⟩
  have heng : engineOf (applyOpts defaults opts) =
      { sSfM_Data_Filename := (applyOpts defaults opts).sSfM_Data_Filename
        sMatchesDir := (applyOpts defaults opts).sMatchesDir
        sOutDir := out
        eRotationAveragingMethod := ERotationAveragingMethod.mk 2
        eTranslationAveragingMethod := ETranslationAveragingMethod.mk 1
        bHtmlReport := true
        bRefineFocalAndPP := true
        bRefineDisto := true } := by
    simp [engineOf, ho, hr2, ht1, hf1, hd1]
  have hcolor : ∀ e ∈ (run env (applyOpts defaults opts) [Event.cout banner]).trace,
      e ≠ Event.ColorizeTracks ∧ e.colorPtr? ≠ some ColorPtr.vec_tracksColor := by
    intro e he
    rw [run_of_valid env _ _ hvalid] at he
    have hpre : e ∈ [Event.cout banner] ++ setup env (applyOpts defaults opts) →
        e ≠ Event.ColorizeTracks ∧ e.colorPtr? ≠ some ColorPtr.vec_tracksColor := by
      intro he
      simp only [List.mem_append, List.mem_singleton] at he
      rcases he with he | he
      · subst he; exact ⟨by simp, by simp [Event.colorPtr?]⟩
      · obtain ⟨-, -, h3, h4⟩ := mem_setup env _ e he
        refine ⟨fun hcz => ?_, by simp [h4]⟩
        rw [hcz] at h3
        cases h3
    split at he
    · simp only [List.mem_append, List.mem_singleton] at he
      rcases he with (he | he) | he
      · exact hpre (by simpa using he)
      · subst he; exact ⟨by simp, by simp [Event.colorPtr?]⟩
      · unfold onSuccess at he
        simp only [hc0, Bool.false_eq_true, if_false, List.append_nil, List.mem_append,
          List.mem_singleton] at he
        rcases he with ((he | he) | he) | he
        · subst he; exact ⟨by simp, by simp [Event.colorPtr?]⟩
        · subst he; exact ⟨by simp, by simp [Event.colorPtr?, colorArg]⟩
        · subst he; exact ⟨by simp, by simp [Event.colorPtr?]⟩
        · obtain ⟨-, -, -, -, -, h6, h7⟩ := mem_exportScene env _ e he
          refine ⟨fun hcz => ?_, ?_⟩
          · rw [hcz] at h6
            cases h6
          · rcases h7 with h7 | h7 <;> rw [h7] <;> simp [hc0, colorArg]
    · simp only [List.mem_append, List.mem_singleton] at he
      rcases he with he | he
      · exact hpre (by simpa using he)
      · subst he; exact ⟨by simp, by simp [Event.colorPtr?]⟩
  rw [main_of_ok argv0 args env opts hargs hparse]
  refine ⟨hvalid, ?_, ?_, ?_, hc0, fun hmem => (hcolor _ hmem).1 rfl,
    fun e he => (hcolor e he).2⟩
  · rw [filter_isEngineCtor_run env _ hvalid, ho, hr2, ht1]
  · rw [filter_isSetter_run env _ hvalid, hf1, hd1]
  · rw [filter_isProcess_run env _ hvalid, heng]

/-- Witness of C7: `-i sfm_data.json -m matches -o out`. -/
theorem C7_defaults_witness :
    (main "main_GlobalSfM" ["-i", "sfm_data.json", "-m", "matches", "-o", "out"]
      (sampleEnv [OptArg.i "sfm_data.json", OptArg.m "matches", OptArg.o "out"]
        false true ["images/a.jpg"] true)).trace.filter Event.isEngineCtor =
      [Event.GlobalReconstructionEngine "sfm_data.json" "matches" "out" ⟨2⟩ ⟨1⟩ true] ∧
    (main "main_GlobalSfM" ["-i", "sfm_data.json", "-m", "matches", "-o", "out"]
      (sampleEnv [OptArg.i "sfm_data.json", OptArg.m "matches", OptArg.o "out"]
        false true ["images/a.jpg"] true)).trace.filter Event.isSetter =
      [Event.setRefineFocalAndPP true, Event.setRefineDisto true] ∧
    Event.ColorizeTracks ∉
      (main "main_GlobalSfM" ["-i", "sfm_data.json", "-m", "matches", "-o", "out"]
        (sampleEnv [OptArg.i "sfm_data.json", OptArg.m "matches", OptArg.o "out"]
          false true ["images/a.jpg"] true)).trace :=
  have h := C7_defaults "main_GlobalSfM" ["-i", "sfm_data.json", "-m", "matches", "-o", "out"]
    (sampleEnv [OptArg.i "sfm_data.json", OptArg.m "matches", OptArg.o "out"]
      false true ["images/a.jpg"] true)
    [OptArg.i "sfm_data.json", OptArg.m "matches", OptArg.o "out"] "out"
    (by decide) rfl (by decide) (by decide) (by decide)
  ⟨h.2.1, h.2.2.1, h.2.2.2.2.2.1⟩

/-! ## Colorization and export -/

/-- C8: on every run that returns `EXIT_SUCCESS`, `ColorizeTracks` is called
if and only if the `coloredPointCloud` flag is true; `exportToPly` is called
with, and every exporter call receives, the address of the colour vector when
the flag is true and `NULL` when it is false; when the flag is true the
colour vector is filled before any exporter is called. On every parsed command
line, had the parser read one more `-c` option with any value, the exit code
would be the same. -/
theorem C8_colorization (argv0 : String) (args : List String) (env : Env)
    (opts : List OptArg) (hargs : args ≠ [])
    (hparse : env.cmd_process args = Except.ok opts) :
    ((main argv0 args env).exitCode = EXIT_SUCCESS →
      (Event.ColorizeTracks ∈ (main argv0 args env).trace ↔
        (applyOpts defaults opts).bColoredPointCloud = true) ∧
      (∀ e ∈ (main argv0 args env).trace, ∀ p, e.colorPtr? = some p →
        p = if (applyOpts defaults opts).bColoredPointCloud = true
          then ColorPtr.vec_tracksColor else ColorPtr.NULL) ∧
      (∃ file, Event.exportToPly file
          (if (applyOpts defaults opts).bColoredPointCloud = true
            then ColorPtr.vec_tracksColor else ColorPtr.NULL) ∈ (main argv0 args env).trace) ∧
      ((applyOpts defaults opts).bColoredPointCloud = true →
        ∃ pre post, (main argv0 args env).trace = pre ++ Event.ColorizeTracks :: post ∧
          ∀ e ∈ pre, e.colorPtr? = none)) ∧
    (∀ b, (main argv0 args
        { env with cmd_process := fun _ => Except.ok (opts ++ [OptArg.c b]) }).exitCode
      = (main argv0 args env).exitCode) := by
  constructor
  · intro hexit
    rw [main_of_ok argv0 args env opts hargs hparse] at hexit ⊢
    generalize applyOpts defaults opts = v at hexit ⊢
    rw [exitCode_run] at hexit
    have hc : passesValidation v ∧ env.Process (engineOf v) = true := by
      by_contra hc
      rw [if_neg hc] at hexit
      exact absurd hexit (by decide)
    rw [run_of_success env v _ hc.1 hc.2]
    have hpre : ∀ e ∈ [Event.cout banner] ++ setup env v ++ [Event.Process true],
        e ≠ Event.ColorizeTracks ∧ e.colorPtr? = none := by
      intro e he
      simp only [List.mem_append, List.mem_singleton] at he
      rcases he with (he | he) | he
      · subst he; exact ⟨by simp, rfl⟩
      · obtain ⟨-, -, h3, h4⟩ := mem_setup env v e he
        refine ⟨fun hcz => ?_, h4⟩
        rw [hcz] at h3
        cases h3
      · subst he; exact ⟨by simp, rfl⟩
    refine ⟨?_, ?_, ?_, ?_⟩
    · constructor
      · intro hm
        rcases List.mem_append.1 hm with hm | hm
        · exact absurd rfl (hpre _ hm).1
        · unfold onSuccess at hm
          simp only [List.mem_append, List.mem_singleton] at hm
          rcases hm with (((hm | hm) | hm) | hm) | hm
          · cases hm
          · by_contra hb
            rw [if_neg hb] at hm
            simp at hm
          · cases hm
          · cases hm
          · have := (mem_exportScene env v _ hm).2.2.2.2.2.1
            cases this
      · intro hb
        apply List.mem_append_right
        unfold onSuccess
        simp [hb]
    · intro e he p hp
      rcases List.mem_append.1 he with he | he
      · rw [(hpre e he).2] at hp
        cases hp
      · rcases (mem_onSuccess env v e he).2.2.2.2 with h | h
        · rw [h] at hp
          cases hp
        · rw [h] at hp
          simp only [Option.some.injEq] at hp
          rw [← hp]
          rfl
    · refine ⟨env.create_filespec v.sOutDir "FinalColorized" ".ply", ?_⟩
      apply List.mem_append_right
      unfold onSuccess
      simp [colorArg]
    · intro hb
      refine ⟨[Event.cout banner] ++ setup env v ++ [Event.Process true]
          ++ [Event.cout msgElapsed],
        [Event.exportToPly (env.create_filespec v.sOutDir "FinalColorized" ".ply")
            (colorArg v.bColoredPointCloud),
          Event.cout (msgExport v.bColoredPointCloud)] ++ exportScene env v, ?_, ?_⟩
      · unfold onSuccess
        simp [hb]
      · intro e he
        rcases List.mem_append.1 he with he | he
        · exact (hpre e he).2
        · rw [List.mem_singleton] at he
          subst he
          rfl
  · intro b
    rw [main_of_ok argv0 args _ (opts ++ [OptArg.c b]) hargs rfl,
      main_of_ok argv0 args env opts hargs hparse, applyOpts_concat]
    exact exitCode_run_colored env _ b _ _

/-- Witness of C8: a successful run with `-c 1` calls `ColorizeTracks`. -/
theorem C8_colorization_witness :
    Event.ColorizeTracks ∈
      (main "main_GlobalSfM" ["-o", "out", "-c", "1"]
        (sampleEnv [OptArg.o "out", OptArg.c true] true true ["images/a.jpg"] true)).trace ∧
    (main "main_GlobalSfM" ["-o", "out", "-c", "1"]
        { sampleEnv [OptArg.o "out", OptArg.c true] true true ["images/a.jpg"] true with
          cmd_process := fun _ =>
            Except.ok ([OptArg.o "out", OptArg.c true] ++ [OptArg.c false]) }).exitCode
      = (main "main_GlobalSfM" ["-o", "out", "-c", "1"]
        (sampleEnv [OptArg.o "out", OptArg.c true] true true ["images/a.jpg"] true)).exitCode :=
  have h := C8_colorization "main_GlobalSfM" ["-o", "out", "-c", "1"]
    (sampleEnv [OptArg.o "out", OptArg.c true] true true ["images/a.jpg"] true)
    [OptArg.o "out", OptArg.c true] (by decide) rfl
  ⟨(h.1 (by decide)).1.2 (by decide), h.2 false⟩

/-- C9: once `Process()` has returned true, `main` returns `EXIT_SUCCESS` and
`exportToPly` has been called exactly once, whatever happens to the scene
export: when `getFilenamesVector()` is empty `ExportToOpenMVGFormat` is not
called and nothing is reported; otherwise it is called exactly once and
"Error while saving the scene." is written exactly when it returned false. -/
theorem C9_success_regardless_of_export (argv0 : String) (args : List String) (env : Env)
    (opts : List OptArg) (hargs : args ≠ [])
    (hparse : env.cmd_process args = Except.ok opts)
    (hprocess : Event.Process true ∈ (main argv0 args env).trace) :
    (main argv0 args env).exitCode = EXIT_SUCCESS ∧
    ((main argv0 args env).trace.filter Event.isExportToPly).length = 1 ∧
    (env.getFilenamesVector (engineOf (applyOpts defaults opts)) = [] →
      (main argv0 args env).trace.filter Event.isExportToOpenMVGFormat = [] ∧
      Event.cerr msgSaveError ∉ (main argv0 args env).trace) ∧
    (∀ file0 rest,
      env.getFilenamesVector (engineOf (applyOpts defaults opts)) = file0 :: rest →
      (main argv0 args env).trace.filter Event.isExportToOpenMVGFormat =
        [Event.ExportToOpenMVGFormat
          (env.folder_append_separator (applyOpts defaults opts).sOutDir ++ "SfM_output")
          (file0 :: rest) (env.folder_part file0)
          (if (applyOpts defaults opts).bColoredPointCloud = true
            then ColorPtr.vec_tracksColor else ColorPtr.NULL)
          true "generated by the Global OpenMVG Calibration Engine"
          (env.ExportToOpenMVGFormat
            (env.folder_append_separator (applyOpts defaults opts).sOutDir ++ "SfM_output")
            (file0 :: rest) (env.folder_part file0)
            (if (applyOpts defaults opts).bColoredPointCloud = true
              then ColorPtr.vec_tracksColor else ColorPtr.NULL))] ∧
      (Event.cerr msgSaveError ∈ (main argv0 args env).trace ↔
        env.ExportToOpenMVGFormat
          (env.folder_append_separator (applyOpts defaults opts).sOutDir ++ "SfM_output")
          (file0 :: rest) (env.folder_part file0)
          (if (applyOpts defaults opts).bColoredPointCloud = true
            then ColorPtr.vec_tracksColor else ColorPtr.NULL) = false)) := by
  rw [main_of_ok argv0 args env opts hargs hparse] at hprocess ⊢
  generalize applyOpts defaults opts = v at hprocess ⊢
  obtain ⟨hv, hp⟩ := valid_of_process_true_mem env v hprocess
  rw [run_of_success env v _ hv hp]
  have hcerr : ∀ text, Event.cerr text ∈
      [Event.cout banner] ++ setup env v ++ [Event.Process true] ++ onSuccess env v ↔
      Event.cerr text ∈ exportScene env v := by
    intro text
    have hs := cerr_not_mem_setup env v text
    unfold onSuccess
    cases v.bColoredPointCloud <;> simp [hs]
  refine ⟨rfl, ?_, ?_, ?_⟩
  · simp [List.filter_append, List.filter_cons, filter_isExportToPly_setup,
      filter_isExportToPly_onSuccess, Event.isExportToPly]
  · intro hnil
    have hx : exportScene env v = [] := by
      unfold exportScene
      rw [hnil]
    refine ⟨?_, ?_⟩
    · unfold onSuccess
      rw [hx]
      cases v.bColoredPointCloud <;>
        simp [List.filter_append, List.filter_cons, filter_isExportToOpenMVGFormat_setup,
          Event.isExportToOpenMVGFormat]
    · rw [hcerr, hx]
      simp
  · intro file0 rest hcons
    have hx : exportScene env v =
        Event.ExportToOpenMVGFormat (env.folder_append_separator v.sOutDir ++ "SfM_output")
          (file0 :: rest) (env.folder_part file0) (colorArg v.bColoredPointCloud) true
          "generated by the Global OpenMVG Calibration Engine"
          (env.ExportToOpenMVGFormat (env.folder_append_separator v.sOutDir ++ "SfM_output")
            (file0 :: rest) (env.folder_part file0) (colorArg v.bColoredPointCloud))
        :: (if !(env.ExportToOpenMVGFormat
            (env.folder_append_separator v.sOutDir ++ "SfM_output")
            (file0 :: rest) (env.folder_part file0) (colorArg v.bColoredPointCloud))
          then [Event.cerr msgSaveError] else []) := by
      unfold exportScene
      rw [hcons]
    have hca : colorArg v.bColoredPointCloud =
        if v.bColoredPointCloud = true then ColorPtr.vec_tracksColor else ColorPtr.NULL := rfl
    rw [← hca]
    refine ⟨?_, ?_⟩
    · unfold onSuccess
      rw [hx]
      cases v.bColoredPointCloud <;>
        cases env.ExportToOpenMVGFormat (env.folder_append_separator v.sOutDir ++ "SfM_output")
          (file0 :: rest) (env.folder_part file0) _ <;>
        simp [List.filter_append, List.filter_cons, filter_isExportToOpenMVGFormat_setup,
          Event.isExportToOpenMVGFormat]
    · rw [hcerr, hx]
      cases env.ExportToOpenMVGFormat (env.folder_append_separator v.sOutDir ++ "SfM_output")
          (file0 :: rest) (env.folder_part file0) (colorArg v.bColoredPointCloud) <;> simp

/-- Witness of C9: the scene export fails, "Error while saving the scene."
is written, and the exit code is still `EXIT_SUCCESS`. -/
theorem C9_success_regardless_of_export_witness :
    Event.Process true ∈
      (main "main_GlobalSfM" ["-o", "out"]
        (sampleEnv [OptArg.o "out"] true true ["images/a.jpg"] false)).trace ∧
    (main "main_GlobalSfM" ["-o", "out"]
        (sampleEnv [OptArg.o "out"] true true ["images/a.jpg"] false)).exitCode
      = EXIT_SUCCESS ∧
    Event.cerr msgSaveError ∈
      (main "main_GlobalSfM" ["-o", "out"]
        (sampleEnv [OptArg.o "out"] true true ["images/a.jpg"] false)).trace :=
  have h := C9_success_regardless_of_export "main_GlobalSfM" ["-o", "out"]
    (sampleEnv [OptArg.o "out"] true true ["images/a.jpg"] false) [OptArg.o "out"]
    (by decide) rfl (by decide)
  ⟨by decide, h.1, ((h.2.2.2 "images/a.jpg" [] rfl).2).2 rfl⟩

/-! ## Rejected and accepted command lines -/

/-- C10: when no argument is given or option parsing throws, `main` returns
`EXIT_FAILURE` having done nothing but write the banner, the usage text and
the thrown message: no validation message, no file system call, no engine
call. When the command line passes all validation, `folder_create(sOutDir)`
is called if and only if `folder_exists(sOutDir)` is false, no other folder is
created, and the trace splits at the engine construction into a part without
any engine call and a part without any file system call. -/
theorem C10_rejected_no_side_effect (argv0 : String) (args : List String) (env : Env) :
    ((args = [] ∨ ∃ s, env.cmd_process args = Except.error s) →
      (main argv0 args env).exitCode = EXIT_FAILURE ∧
      ∃ s, (main argv0 args env).trace =
        [Event.cout banner, Event.cerr (usage argv0), Event.cerr (s ++ "\n")]) ∧
    (∀ opts, args ≠ [] → env.cmd_process args = Except.ok opts →
      passesValidation (applyOpts defaults opts) →
      (Event.folder_create (applyOpts defaults opts).sOutDir ∈ (main argv0 args env).trace ↔
        env.folder_exists (applyOpts defaults opts).sOutDir = false) ∧
      (∀ dir, Event.folder_create dir ∈ (main argv0 args env).trace →
        dir = (applyOpts defaults opts).sOutDir) ∧
      ∃ pre post, (main argv0 args env).trace =
          pre ++ Event.GlobalReconstructionEngine (applyOpts defaults opts).sSfM_Data_Filename
            (applyOpts defaults opts).sMatchesDir (applyOpts defaults opts).sOutDir
            (ERotationAveragingMethod.mk (applyOpts defaults opts).iRotationAveragingMethod)
            (ETranslationAveragingMethod.mk
              (applyOpts defaults opts).iTranslationAveragingMethod)
            true :: post ∧
        (∀ e ∈ pre, e.isEngine = false) ∧ ∀ e ∈ post, e.isFileSystem = false) := by
  constructor
  · intro h
    by_cases hargs : args = []
    · subst hargs
      rw [main_nil]
      exact ⟨rfl, "Invalid parameter.", rfl⟩
    · rcases h with h | ⟨s, hs⟩
      · exact absurd h hargs
      · rw [main_of_error argv0 args env s hargs hs]
        exact ⟨rfl, s, rfl⟩
  · intro opts hargs hparse hvalid
    rw [main_of_ok argv0 args env opts hargs hparse]
    generalize applyOpts defaults opts = v at hvalid ⊢
    rw [run_of_valid env v _ hvalid]
    have hsplit : ∃ tail, (∀ e ∈ tail, e.isFileSystem = false) ∧
        (if env.Process (engineOf v) = true then
          (⟨EXIT_SUCCESS, [Event.cout banner] ++ setup env v ++ [Event.Process true]
            ++ onSuccess env v⟩ : Result)
        else ⟨EXIT_FAILURE, [Event.cout banner] ++ setup env v ++ [Event.Process false]⟩).trace
        = [Event.cout banner] ++ setup env v ++ tail := by
      cases env.Process (engineOf v) with
      | false =>
        refine ⟨[Event.Process false], ?_, by simp⟩
        intro e he
        rw [List.mem_singleton] at he
        subst he
        rfl
      | true =>
        refine ⟨[Event.Process true] ++ onSuccess env v, ?_, by simp⟩
        intro e he
        rcases List.mem_append.1 he with he | he
        · rw [List.mem_singleton] at he
          subst he
          rfl
        · exact (mem_onSuccess env v e he).1
    obtain ⟨tail, htail, htrace⟩ := hsplit
    rw [htrace]
    have hnot : ∀ dir, Event.folder_create dir ∉ tail := fun dir hm => by
      have := htail _ hm
      cases this
    refine ⟨?_, ?_, ?_⟩
    · unfold setup
      cases hf : env.folder_exists v.sOutDir <;> simp [hnot]
    · intro dir hm
      unfold setup at hm
      cases hf : env.folder_exists v.sOutDir <;> simp [hf, hnot] at hm
      exact hm
    · refine ⟨[Event.cout banner] ++
          (if !env.folder_exists v.sOutDir
            then [Event.folder_exists v.sOutDir false, Event.folder_create v.sOutDir]
            else [Event.folder_exists v.sOutDir true]),
        [Event.setRefineFocalAndPP v.bRefineFocalAndPP,
          Event.setRefineDisto v.bRefineDisto] ++ tail, ?_, ?_, ?_⟩
      · unfold setup
        simp
      · intro e he
        cases hf : env.folder_exists v.sOutDir <;>
          simp only [hf, Bool.not_false, Bool.not_true, if_true, Bool.false_eq_true, if_false,
            List.mem_append, List.mem_cons, List.mem_singleton, List.not_mem_nil,
            or_false] at he
        · rcases he with rfl | rfl | rfl <;> rfl
        · rcases he with rfl | rfl <;> rfl
      · intro e he
        rcases List.mem_append.1 he with he | he
        · simp only [List.mem_cons, List.mem_singleton, List.not_mem_nil, or_false] at he
          rcases he with rfl | rfl <;> rfl
        · exact htail e he

/-- Witness of C10: a command line without arguments, one whose parsing
throws, and an accepted one whose output folder does not exist yet. -/
theorem C10_rejected_no_side_effect_witness :
    (main "main_GlobalSfM" [] (throwingEnv "unused")).exitCode = EXIT_FAILURE ∧
    (main "main_GlobalSfM" ["-x"] (throwingEnv "Unrecognized option -x")).exitCode
      = EXIT_FAILURE ∧
    Event.folder_create "out" ∈
      (main "main_GlobalSfM" ["-o", "out"]
        (sampleEnv [OptArg.o "out"] false true [] true)).trace :=
  ⟨((C10_rejected_no_side_effect "main_GlobalSfM" []
      (throwingEnv "unused")).1 (Or.inl rfl)).1,
    ((C10_rejected_no_side_effect "main_GlobalSfM" ["-x"]
      (throwingEnv "Unrecognized option -x")).1 (Or.inr ⟨"Unrecognized option -x", rfl⟩)).1,
    (((C10_rejected_no_side_effect "main_GlobalSfM" ["-o", "out"]
      (sampleEnv [OptArg.o "out"] false true [] true)).2 [OptArg.o "out"]
      (by decide) rfl (by decide)).1).2 rfl⟩

end GlobalSfM
